import Mathlib

/-!
Verification of the JusBook conversational booking assistant (`main.py`).

The development shallowly embeds the conversational core of the source:
the intent classifier, the goodbye check, the per-state dialogue handlers,
the in-memory booking store, and the API-level `start-session` /
`send-message` operations, as pure Lean functions over explicit state.

Modelling conventions:
* Python strings are Lean `String`s; Python `k in s` (substring test) is
  `containsStr s k`; `str.lower()` is `pyLower`; `str.strip()` is
  `pyStrip`; `str.split()` is `splitWs`; `str.title()` is `pyTitle`.
  These are written as structural recursions over the character list so
  that they evaluate inside the kernel; the inputs exercised are ASCII,
  where they agree with Python.
* The external date/time parser (`dateutil.parser.parse` plus the two
  `strftime` renderings) is an abstract collaborator
  `parse : String -> Option (String × String)` returning the formatted
  `(date, time)` pair on success and `none` when it raises; the clock is
  abstracted by the `tomorrow` string that `extract_datetime` would
  compute from `datetime.now()`.
* `uuid` identifiers become sequential `Nat`s (only identity matters);
  dictionaries keyed by uuid become lists in insertion order, which is
  exactly the iteration order of the Python dicts.
* Paths on which the Python code would raise an uncaught exception
  (attribute/key errors on states unreachable in the core flow) are
  modelled as no-change turns; they are marked in comments.
-/

/-- The apostrophe character, written by code point. -/
def apos : Char := Char.ofNat 39

/-- Render a message template, `@` standing for an apostrophe. -/
def qGo : List Char → List Char
  | [] => []
  | c :: t => (if c == '@' then apos else c) :: qGo t

/-- Render a message template, `@` standing for an apostrophe. -/
def q (s : String) : String := String.mk (qGo s.data)

/-- Python `str.lower()` (ASCII). -/
def pyLower (s : String) : String := String.mk (s.data.map Char.toLower)

/-- Python `str.strip()`. -/
def pyStrip (s : String) : String :=
  String.mk (((s.data.dropWhile Char.isWhitespace).reverse.dropWhile Char.isWhitespace).reverse)

/-- Does `needle` occur as a contiguous run inside `hay`?  This is
Python's `needle in hay` on strings. -/
def occursIn (needle : List Char) : List Char → Bool
  | [] => needle.isEmpty
  | c :: rest => needle.isPrefixOf (c :: rest) || occursIn needle rest

/-- Python `needle in hay` for `String`s. -/
def containsStr (hay needle : String) : Bool := occursIn needle.data hay.data

/-- Python `str.split()` helper: accumulate the current word (reversed). -/
def splitWsGo (cur : List Char) : List Char → List String
  | [] => if cur.isEmpty then [] else [String.mk cur.reverse]
  | c :: t =>
    if c.isWhitespace then
      if cur.isEmpty then splitWsGo [] t else String.mk cur.reverse :: splitWsGo [] t
    else splitWsGo (c :: cur) t

/-- Python `str.split()` : split on whitespace runs, dropping empties. -/
def splitWs (s : String) : List String := splitWsGo [] s.data

/-- Python `str.isalpha()`. -/
def pyIsAlpha (w : String) : Bool := !w.data.isEmpty && w.data.all Char.isAlpha

/-- Python `str.title()`, character level: a letter is uppercased when the
previous character is not a letter, lowercased otherwise. -/
def pyTitleGo : Bool → List Char → List Char
  | _, [] => []
  | prev, c :: t =>
    if c.isAlpha then (if prev then c.toLower else c.toUpper) :: pyTitleGo true t
    else c :: pyTitleGo false t

/-- Python `str.title()`. -/
def pyTitle (s : String) : String := String.mk (pyTitleGo false s.data)

/-- `", ".join(l)` and friends. -/
def joinSep (sep : String) : List String → String
  | [] => ""
  | [x] => x
  | x :: xs => x ++ sep ++ joinSep sep xs

/-- `GOODBYE_KEYWORDS` from `main.py`. -/
def GOODBYE_KEYWORDS : List String := ["bye", "goodbye", "see you", "exit", "quit"]

/-- The goodbye short-circuit test at the top of `get_response_for_state`:
`any(word in user_input.lower() for word in GOODBYE_KEYWORDS)`. -/
def isGoodbye (input : String) : Bool :=
  GOODBYE_KEYWORDS.any (fun w => containsStr (pyLower input) w)

/-- `IntentClassifier.intents` from `main.py`, in insertion order (Python
dicts iterate in insertion order). -/
def intentTable : List (String × List String) := [
  ("greeting", ["hi", "hello", "hey", "good morning", "good afternoon"]),
  ("booking", ["book", "appointment", "schedule", "reserve"]),
  ("availability", ["available", "slots", "when", "time"]),
  ("cancel", ["cancel", "remove", "delete"]),
  ("update", ["change", "update", "reschedule"]),
  ("show_bookings", ["show my bookings", "my bookings", "list bookings", "current bookings"]),
  ("help", ["help", "assist", "what can you do"]),
  ("confirm", ["yes", "confirm", "ok", "sure", "correct"]),
  ("deny", ["no", "cancel", "wrong", "incorrect"])]

/-- `any(keyword in text for keyword in keywords)`. -/
def keywordHit (t : String) (kws : List String) : Bool :=
  kws.any (fun k => containsStr t k)

/-- `IntentClassifier.classify`: lowercase and trim, then return the first
intent of `intentTable` with a keyword occurring in the text, else
`"unknown"`. -/
def classify (text : String) : String :=
  let t := pyStrip (pyLower text)
  match intentTable.find? (fun e => keywordHit t e.2) with
  | some e => e.1
  | none => "unknown"

example : classify "Hi" = "greeting" := by decide
example : classify "show my bookings" = "booking" := by decide
example : classify "no cancel" = "cancel" := by decide
example : classify "xyz123" = "unknown" := by decide
example : isGoodbye "cancel bye" = true := by decide
example : containsStr "haircut" "hi" = false := by decide

/-! ## Name extraction (`extract_name`) -/

/-- A regex `\w` character (ASCII): letter, digit or underscore. -/
def isWordChar (c : Char) : Bool := c.isAlphanum || c == '_'

/-- The maximal `\w+` run at the head of the input (greedy capture). -/
def takeWord (cs : List Char) : List Char := cs.takeWhile isWordChar

/-- `re.search` for a pattern of the form `<literal prefix>(\w+)`: scan
left to right for a position where the literal prefix matches and at
least one word character follows, and return the greedy capture. -/
def searchPat (pat : List Char) : List Char → Option (List Char)
  | [] => none
  | c :: rest =>
    if pat.isPrefixOf (c :: rest) then
      let w := takeWord ((c :: rest).drop pat.length)
      if w.isEmpty then searchPat pat rest else some w
    else searchPat pat rest

/-- The literal prefix of the pattern `my name is (\w+)`. -/
def myNameIsPat : List Char := "my name is ".data

/-- The literal prefix of the pattern `i'm (\w+)` (apostrophe spelled by
code point). -/
def imPat : List Char := ['i', apos, 'm', ' ']

/-- The literal prefix of the pattern `i am (\w+)`. -/
def iAmPat : List Char := "i am ".data

/-- The literal prefix of the pattern `call me (\w+)`. -/
def callMePat : List Char := "call me ".data

/-- The pattern list of `extract_name`, in source order. -/
def namePatterns : List (List Char) := [myNameIsPat, imPat, iAmPat, callMePat]

/-- Try each pattern in order, returning the first capture. -/
def tryPatterns : List (List Char) → List Char → Option (List Char)
  | [], _ => none
  | p :: ps, cs =>
    match searchPat p cs with
    | some w => some w
    | none => tryPatterns ps cs

/-- `extract_name` from `main.py`: try the four regex patterns in order on
the lowercased, stripped text and title-case the capture; otherwise
title-case a whole input of exactly one alphabetic word, or of exactly
two alphabetic words joined by a space; otherwise fail. -/
def extract_name (text : String) : Option String :=
  let t := pyStrip text
  match tryPatterns namePatterns (pyLower t).data with
  | some w => some (pyTitle (String.mk w))
  | none =>
    match splitWs t with
    | [w] => if pyIsAlpha w then some (pyTitle w) else none
    | [w1, w2] =>
      if pyIsAlpha w1 && pyIsAlpha w2 then some (pyTitle w1 ++ " " ++ pyTitle w2) else none
    | _ => none

/-- The test input `I'm Bob`, apostrophe spelled by code point. -/
def imBobInput : String := String.mk (['I', apos, 'm'] ++ " Bob".data)

example : extract_name imBobInput = some "Bob" := by decide
example : extract_name "my name is alice" = some "Alice" := by decide
example : extract_name "call me Mary Jane" = some "Mary" := by decide
example : extract_name "xyz123" = none := by decide
example : extract_name "Mary Jane" = some "Mary Jane" := by decide

/-! ## Date/time extraction (`extract_datetime`) -/

/-- `extract_datetime` from `main.py`.  The external collaborator
(`dateutil.parser.parse` followed by the two `strftime` renderings) is
abstracted as `parse`, returning the formatted `(date, time)` pair on
success and `none` when the parser raises; `tomorrow` abstracts
`(datetime.now() + timedelta(days=1)).strftime("%Y-%m-%d")`.  On parser
failure the source catches the exception and falls back to tomorrow at
`09:00 AM`. -/
def extract_datetime (parse : String → Option (String × String)) (tomorrow : String)
    (text : String) : String × String :=
  match parse (pyStrip text) with
  | some (d, t) => (d, t)
  | none => (tomorrow, "09:00 AM")

/-! ## Data model -/

/-- `Service` from `main.py` (`created_at` dropped; it is never read).
The price is kept as its display string, as the core never computes with
it. -/
structure Service where
  id : Nat
  name : String
  duration : Nat
  price : String
  available_slots : List String
  deriving DecidableEq

/-- `Booking` from `main.py` (`created_at` dropped; it is never read).
`user_name`, `date` and `time` are copied from nullable session fields,
hence `Option`. -/
structure Booking where
  id : Nat
  user_name : Option String
  service_id : Nat
  date : Option String
  time : Option String
  status : String
  deriving DecidableEq

/-- `ConversationSession` from `main.py` (`id` and `created_at` dropped;
the id is the session's index in the store).  The history records
`(isUser, text)` turns in order. -/
structure Session where
  state : String
  user_name : Option String
  selected_service : Option Service
  selected_date : Option String
  selected_time : Option String
  history : List (Bool × String)
  deriving DecidableEq

/-- Python's rendering of a possibly-`None` string in an f-string. -/
def pyOptStr : Option String → String
  | some s => s
  | none => "None"

/-- `initialize_sample_data` from `main.py`: the three seeded services. -/
def haircut : Service :=
  ⟨0, "Haircut", 30, "25.0", ["09:00 AM", "10:00 AM", "11:00 AM", "02:00 PM", "03:00 PM", "04:00 PM"]⟩

/-- The seeded Consultation service. -/
def consultation : Service := ⟨1, "Consultation", 60, "50.0", ["09:00 AM", "11:00 AM", "02:00 PM", "04:00 PM"]⟩

/-- The seeded Massage service. -/
def massage : Service := ⟨2, "Massage", 90, "80.0", ["09:00 AM", "11:00 AM", "02:00 PM"]⟩

/-- `services_db` after `initialize_sample_data()`. -/
def initServices : List Service := [haircut, consultation, massage]

/-- A fresh `ConversationSession()`. -/
def initSession : Session := ⟨"greeting", none, none, none, none, []⟩

/-- `is_slot_available` from `main.py`: no confirmed booking matches the
service, date and time. -/
def is_slot_available (bs : List Booking) (sid : Nat) (date time : String) : Bool :=
  bs.all fun b =>
    !(b.service_id == sid && b.date == some date && b.time == some time && b.status == "confirmed")

/-! ## Conversation management (`get_response_for_state` and handlers) -/

/-- The result of one turn: the reply text and the updated session,
booking store and next booking id. -/
structure TurnResult where
  reply : String
  session : Session
  bookings : List Booking
  nextId : Nat
  deriving DecidableEq

/-- `services_db[sid]` as an optional lookup. -/
def findService (services : List Service) (sid : Nat) : Option Service :=
  services.find? (fun sv => sv.id == sid)

/-- `services_db[sid].name`; the lookup cannot fail in-core because
services are never removed (modelled total with `""`). -/
def serviceNameOf (services : List Service) (sid : Nat) : String :=
  match findService services sid with
  | some sv => sv.name
  | none => ""

/-- The per-service line of the catalog listing in `handle_name_state`. -/
def serviceLine (sv : Service) : String :=
  "- " ++ sv.name ++ " ($" ++ sv.price ++ ", " ++ toString sv.duration ++ " min)"

/-- `handle_greeting_state`: ignore the input, prompt for the name. -/
def handle_greeting_state (s : Session) : String × Session :=
  (q "Welcome to JusBook! I@m your AI assistant. What@s your name?", { s with state := "name" })

/-- `handle_name_state`: on successful extraction store the name, list the
catalog and move to `service`; otherwise re-prompt. -/
def handle_name_state (services : List Service) (s : Session) (input : String) : String × Session :=
  match extract_name input with
  | some name =>
    let listing := joinSep "\n" (services.map serviceLine)
    ("Nice to meet you, " ++ name ++ "! Here are our available services:\n" ++ listing ++
       "\n\nWhich service would you like to book?",
     { s with user_name := some name, state := "service" })
  | none => (q "I didn@t catch your name. Could you tell me again?", s)

/-- `handle_service_state`: first catalog service whose lowercased name
occurs in the lowercased input; echo price/duration and slots and move to
`datetime`, else list the names. -/
def handle_service_state (services : List Service) (s : Session) (input : String) : String × Session :=
  match services.find? (fun sv => containsStr (pyLower input) (pyLower sv.name)) with
  | some sv =>
    ("Great choice! " ++ sv.name ++ " costs $" ++ sv.price ++ " and takes " ++
       toString sv.duration ++ " minutes.\nAvailable slots: " ++ joinSep ", " sv.available_slots ++
       q "\nWhat date and time would you prefer? (e.g., @tomorrow at 2 PM@)",
     { s with selected_service := some sv, state := "datetime" })
  | none =>
    (q "I didn@t recognize that service. Available services: " ++
       joinSep ", " (services.map Service.name) ++ ". Which one would you like?", s)

/-- The booking summary reply of `handle_datetime_state`. -/
def datetimeSummary (s : Session) (sv : Service) (date time_slot : String) : String :=
  q "Perfect! Here@s your booking:\n\n" ++
    "Name: " ++ pyOptStr s.user_name ++ "\n" ++
    "Service: " ++ sv.name ++ "\n" ++
    "Date: " ++ date ++ "\n" ++
    "Time: " ++ time_slot ++ "\n" ++
    "Duration: " ++ toString sv.duration ++ " minutes\n" ++
    "Price: $" ++ sv.price ++ "\n\nShall I confirm this booking?"

/-- `handle_datetime_state`: extract a `(date, time)`; when both are
non-empty, the time is one of the selected service's slots and the slot
is free, record them and move to `confirmation`; when the slot is listed
but taken, say so; otherwise the generic re-prompt. -/
def handle_datetime_state (parse : String → Option (String × String)) (tomorrow : String)
    (bs : List Booking) (s : Session) (input : String) : String × Session :=
  match s.selected_service with
  | none => ("", s)  -- unreachable in-core: the source would raise AttributeError here
  | some sv =>
    let dt := extract_datetime parse tomorrow input
    let date := dt.1
    let time_slot := dt.2
    if date != "" && time_slot != "" && sv.available_slots.contains time_slot then
      if is_slot_available bs sv.id date time_slot then
        (datetimeSummary s sv date time_slot,
         { s with selected_date := some date, selected_time := some time_slot,
                  state := "confirmation" })
      else
        ("Sorry, that slot is not available. Please choose from: " ++
           joinSep ", " sv.available_slots, s)
    else
      (q "I couldn@t understand the date and time. Please try something like @tomorrow at 2 PM@.", s)

/-- The confirmed-booking reply of `handle_confirmation_state`.  The
source displays the first 8 characters of the uuid; the model displays
its `Nat` id. -/
def confirmedSummary (sv : Service) (s : Session) (bid : Nat) : String :=
  "Excellent! Your booking is confirmed!\nBooking ID: " ++ toString bid ++
    "\nService: " ++ sv.name ++ "\nDate: " ++ pyOptStr s.selected_date ++
    "\nTime: " ++ pyOptStr s.selected_time ++ "\nThank you for using JusBook!"

/-- `handle_confirmation_state`: on `confirm` intent create and store the
booking (no availability re-check) and move to `completed`; on `deny`
move back to `service`; otherwise re-prompt. -/
def handle_confirmation_state (s : Session) (intent : String) (bs : List Booking) (nid : Nat) :
    String × Session × List Booking × Nat :=
  if intent == "confirm" then
    match s.selected_service with
    | none => ("", s, bs, nid)  -- unreachable in-core: the source would raise AttributeError here
    | some sv =>
      let booking : Booking := ⟨nid, s.user_name, sv.id, s.selected_date, s.selected_time, "confirmed"⟩
      (confirmedSummary sv s nid, { s with state := "completed" }, bs ++ [booking], nid + 1)
  else if intent == "deny" then
    (q "No problem! Let@s start over. Which service would you like?", { s with state := "service" }, bs, nid)
  else
    (q "Please say @yes@ to confirm or @no@ to start over.", s, bs, nid)

/-- The booking-status rewrite of the global cancel intent: every
confirmed booking of the session's user becomes cancelled. -/
def cancelAllFor (u : Option String) (bs : List Booking) : List Booking :=
  bs.map fun b =>
    if b.user_name == u && b.status == "confirmed" then { b with status := "cancelled" } else b

/-- The first-match cancellation of the global update intent: the source
cancels the first confirmed booking of the user and returns. -/
def cancelFirstFor (u : Option String) : List Booking → List Booking
  | [] => []
  | b :: t =>
    if b.user_name == u && b.status == "confirmed" then { b with status := "cancelled" } :: t
    else b :: cancelFirstFor u t

/-- One line of the show-bookings listing. -/
def bookingLine (services : List Service) (b : Booking) : String :=
  "- " ++ serviceNameOf services b.service_id ++ " on " ++ pyOptStr b.date ++
    " at " ++ pyOptStr b.time ++ "\n"

/-- `get_response_for_state` from `main.py`: goodbye short-circuit, then
the global `show_bookings` / `cancel` / `update` intents, then the
state-specific handlers. -/
def get_response_for_state (services : List Service) (parse : String → Option (String × String))
    (tomorrow : String) (bs : List Booking) (nid : Nat) (s : Session) (input : String) :
    TurnResult :=
  if isGoodbye input then
    ⟨"Goodbye! Thank you for using JusBook. Have a great day!", { s with state := "ended" }, bs, nid⟩
  else
    let intent := classify input
    if intent == "show_bookings" then
      let user_bookings := bs.filter fun b => b.user_name == s.user_name && b.status == "confirmed"
      if !user_bookings.isEmpty then
        ⟨"Here are your current bookings:\n" ++
           String.join (user_bookings.map (bookingLine services)), s, bs, nid⟩
      else ⟨"You have no active bookings.", s, bs, nid⟩
    else if intent == "cancel" then
      let any_cancelled := bs.any fun b => b.user_name == s.user_name && b.status == "confirmed"
      let bs2 := cancelAllFor s.user_name bs
      if any_cancelled then
        ⟨"Your bookings have been cancelled successfully.", { s with state := "greeting" }, bs2, nid⟩
      else ⟨"You have no active bookings to cancel.", s, bs2, nid⟩
    else if intent == "update" then
      match bs.find? (fun b => b.user_name == s.user_name && b.status == "confirmed") with
      | some b =>
        match findService services b.service_id with
        | some sv =>
          (⟨q "Your previous booking is cancelled. Let@s book a new slot for " ++ sv.name ++
              ". Which date and time do you prefer?",
            { s with selected_service := some sv, state := "datetime" },
            cancelFirstFor s.user_name bs, nid⟩)
        | none => ⟨"", s, bs, nid⟩  -- unreachable in-core: KeyError in the source
      | none => ⟨q "You have no bookings to update. Let@s create a new booking.", s, bs, nid⟩
    else
      if s.state == "greeting" then
        let r := handle_greeting_state s
        ⟨r.1, r.2, bs, nid⟩
      else if s.state == "name" then
        let r := handle_name_state services s input
        ⟨r.1, r.2, bs, nid⟩
      else if s.state == "service" then
        let r := handle_service_state services s input
        ⟨r.1, r.2, bs, nid⟩
      else if s.state == "datetime" then
        let r := handle_datetime_state parse tomorrow bs s input
        ⟨r.1, r.2, bs, nid⟩
      else if s.state == "confirmation" then
        let r := handle_confirmation_state s intent bs nid
        ⟨r.1, r.2.1, r.2.2.1, r.2.2.2⟩
      else if s.state == "ended" then
        ⟨"The session has ended. Please start a new session to continue.", s, bs, nid⟩
      else
        ⟨q "I@m sorry, I didn@t understand. Could you try again?", s, bs, nid⟩

/-! ## API-level operations (`start-session`, `send-message`) -/

/-- The whole in-memory store: `services_db`, `bookings_db`,
`sessions_db` and the next fresh booking id. -/
structure GState where
  services : List Service
  bookings : List Booking
  sessions : List Session
  nextBookingId : Nat
  deriving DecidableEq

/-- The store after module initialisation. -/
def initGState : GState := ⟨initServices, [], [], 0⟩

/-- One API call: `start-session`, or `send-message` to session `sid`
with a message; the send also carries the external parser's behaviour
and tomorrow's date for that turn. -/
inductive Op where
  | start : Op
  | send : Nat → String → (String → Option (String × String)) → String → Op

/-- One API call against the store, returning the new store and the reply
(`none` models the 404 `SessionNotFound`).  `send-message` strips the
message, appends the user turn, runs `get_response_for_state` and appends
the assistant turn, as in the source. -/
def step (g : GState) (op : Op) : GState × Option String :=
  match op with
  | .start => ({ g with sessions := g.sessions ++ [initSession] }, some "Welcome to JusBook! Say Hi")
  | .send sid text parse tomorrow =>
    match g.sessions.get? sid with
    | none => (g, none)
    | some s =>
      let msg := pyStrip text
      let s0 := { s with history := s.history ++ [(true, msg)] }
      let r := get_response_for_state g.services parse tomorrow g.bookings g.nextBookingId s0 msg
      let s1 := { r.session with history := r.session.history ++ [(false, r.reply)] }
      ({ g with sessions := g.sessions.set sid s1, bookings := r.bookings,
                nextBookingId := r.nextId },
       some r.reply)

/-- Run a sequence of API calls from the freshly initialised store. -/
def run (ops : List Op) : GState := ops.foldl (fun g op => (step g op).1) initGState

/-! ## Concrete collaborator behaviours and traces -/

/-- A parser that always raises (the `except` branch fires). -/
def parseNone : String → Option (String × String) := fun _ => none

/-- A parser that reads any text as 2026-10-13 at 09:00 AM. -/
def parseT9 : String → Option (String × String) := fun _ => some ("2026-10-13", "09:00 AM")

/-- Tomorrow's date used throughout the concrete traces. -/
def tmr : String := "2026-10-13"

/-- A full happy-path booking by Alice: greeting, name, Haircut,
tomorrow 9 AM, yes. -/
def aliceBooks : List Op := [
  .start,
  .send 0 "hi" parseNone tmr,
  .send 0 "my name is alice" parseNone tmr,
  .send 0 "haircut" parseNone tmr,
  .send 0 "tomorrow at 9 am" parseT9 tmr,
  .send 0 "yes" parseNone tmr]

/-- The booking created by `aliceBooks`. -/
def aliceBooking : Booking := ⟨0, some "Alice", 0, some "2026-10-13", some "09:00 AM", "confirmed"⟩

example : (run aliceBooks).bookings = [aliceBooking] := by decide
example : ((run aliceBooks).sessions.get? 0).map Session.state = some "completed" := by decide

/-- Two sessions race for the same Haircut slot: both pass the
availability check in `datetime` while no booking exists, then both
confirm. -/
def doubleBookOps : List Op := [
  .start, .start,
  .send 0 "hi" parseNone tmr,
  .send 0 "my name is alice" parseNone tmr,
  .send 0 "haircut" parseNone tmr,
  .send 0 "tomorrow at 9 am" parseT9 tmr,
  .send 1 "hi" parseNone tmr,
  .send 1 "my name is mark" parseNone tmr,
  .send 1 "haircut" parseNone tmr,
  .send 1 "tomorrow at 9 am" parseT9 tmr,
  .send 0 "yes" parseNone tmr,
  .send 1 "yes" parseNone tmr]

example : (run doubleBookOps).bookings =
    [⟨0, some "Alice", 0, some "2026-10-13", some "09:00 AM", "confirmed"⟩,
     ⟨1, some "Mark", 0, some "2026-10-13", some "09:00 AM", "confirmed"⟩] := by decide

/-! ## Claim theorems -/

/-- Two distinct confirmed bookings occupying the same
(service, date, time) slot exist in the store. -/
def confirmedSlotClash (bs : List Booking) : Bool :=
  bs.any fun b1 => bs.any fun b2 =>
    b1.id != b2.id && b1.status == "confirmed" && b2.status == "confirmed" &&
    b1.service_id == b2.service_id && b1.date == b2.date && b1.time == b2.time

/-- C1: the slot-exclusivity invariant I1 is violated by the code.  After
the `doubleBookOps` sequence of startSession/sendMessage calls — two
sessions each pass the `datetime` availability check while the store is
still empty, then both confirm — the store holds two distinct confirmed
bookings equal on (serviceId, date, time): `handle_confirmation_state`
creates the booking without re-checking `is_slot_available`. -/
theorem slot_exclusivity_violated_by_race :
    confirmedSlotClash (run doubleBookOps).bookings = true := by decide

/-- The store after `doubleBookOps` up to, but not including, the second
session's confirming "yes". -/
def beforeSecondYes : GState := run (doubleBookOps.take 11)

/-- C2: the confirm contract is violated by the code.  With session 1 in
the `confirmation` state holding a slot that already has a confirmed
booking (so `is_slot_available` is false), its confirm-intent "yes" does
not fail: a second booking is created and the session's state becomes
`completed`. -/
theorem confirm_ignores_slot_conflict :
    classify "yes" = "confirm" ∧
    is_slot_available beforeSecondYes.bookings 0 "2026-10-13" "09:00 AM" = false ∧
    (beforeSecondYes.sessions.get? 1).map Session.state = some "confirmation" ∧
    (step beforeSecondYes (.send 1 "yes" parseNone tmr)).1.bookings.length = 2 ∧
    ((step beforeSecondYes (.send 1 "yes" parseNone tmr)).1.sessions.get? 1).map Session.state
      = some "completed" := by decide

/-- Alice completes a booking, then sends "cancel" to her completed
session. -/
def completedThenCancel : List Op := aliceBooks ++ [.send 0 "cancel" parseNone tmr]

/-- C3 counterexample: a session in the terminal `completed` state is not
absorbing — the global cancel intent still fires, moving the state to
`greeting`. -/
theorem completed_state_not_absorbing :
    ((run aliceBooks).sessions.get? 0).map Session.state = some "completed" ∧
    ((run completedThenCancel).sessions.get? 0).map Session.state = some "greeting" := by decide

/-- C4: the show-bookings intent is unreachable.  Every key phrase of the
`show_bookings` keyword list contains `"book"`, a keyword of the
higher-priority `booking` intent, so `classify` returns `"booking"` for
all of them; a completed session whose user holds a confirmed booking
receives the generic unknown reply instead of the bookings listing. -/
theorem show_bookings_intent_shadowed :
    classify "show my bookings" = "booking" ∧
    classify "my bookings" = "booking" ∧
    classify "list bookings" = "booking" ∧
    classify "current bookings" = "booking" ∧
    (run aliceBooks).bookings = [aliceBooking] ∧
    (step (run aliceBooks) (.send 0 "show my bookings" parseNone tmr)).2 =
      some (q "I@m sorry, I didn@t understand. Could you try again?") := by decide

/-- C5 counterexample: name extraction applied to "call me Mary Jane"
does not return "Mary Jane" — the regex `call me (\w+)` captures a
single word. -/
theorem call_me_mary_jane_not_full_name :
    extract_name "call me Mary Jane" ≠ some "Mary Jane" := by decide

/-- A fresh session that has reached the `name` state. -/
def nameSession : Session := ⟨"name", none, none, none, none, []⟩

/-- C5 amended: "I'm Bob" extracts "Bob"; "call me Mary Jane" extracts
"Mary" (the pattern captures a single word); "xyz123" fails extraction,
and a session in the `name` state receiving it stays in `name` with the
re-prompt reply. -/
theorem name_extraction_vectors :
    extract_name imBobInput = some "Bob" ∧
    extract_name "call me Mary Jane" = some "Mary" ∧
    extract_name "xyz123" = none ∧
    (get_response_for_state initServices parseNone tmr [] 0 nameSession "xyz123").session.state
      = "name" ∧
    (get_response_for_state initServices parseNone tmr [] 0 nameSession "xyz123").reply =
      q "I didn@t catch your name. Could you tell me again?" := by decide

/-- A session in the `datetime` state with the Haircut service selected. -/
def dtSession : Session := ⟨"datetime", some "Alice", some haircut, none, none, []⟩

/-- C6 counterexample: when the external parser fails entirely
(`parseNone`), the session does not stay in `datetime` with the generic
re-prompt — the fallback of tomorrow at 09:00 AM is in Haircut's slot
list and free, so the session advances to `confirmation` with that date
and time recorded. -/
theorem parse_failure_advances_to_confirmation :
    (get_response_for_state initServices parseNone tmr [] 0 dtSession "tomorrow morning").session.state
      = "confirmation" ∧
    (get_response_for_state initServices parseNone tmr [] 0 dtSession "tomorrow morning").session.selected_date
      = some tmr ∧
    (get_response_for_state initServices parseNone tmr [] 0 dtSession "tomorrow morning").session.selected_time
      = some "09:00 AM" := by decide

/-- C6 amended: when the external parser fails entirely, the `datetime`
handler does **not** stay in `datetime` with the generic re-prompt — it
silently behaves as if the user had asked for tomorrow at 09:00 AM: for
every session in the `datetime` state whose selected service lists
"09:00 AM" among its slots and for which that fallback slot is free, the
session advances to `confirmation` with tomorrow's date and "09:00 AM"
recorded. -/
theorem datetime_parse_failure_uses_fallback (services : List Service)
    (bs : List Booking) (nid : Nat) (s : Session) (sv : Service) (tomorrow : String)
    (hstate : s.state = "datetime") (hsv : s.selected_service = some sv)
    (htom : (tomorrow != "") = true)
    (hmem : sv.available_slots.contains "09:00 AM" = true)
    (havail : is_slot_available bs sv.id tomorrow "09:00 AM" = true) :
    (get_response_for_state services parseNone tomorrow bs nid s "tomorrow morning").session.state
      = "confirmation" ∧
    (get_response_for_state services parseNone tomorrow bs nid s "tomorrow morning").session.selected_date
      = some tomorrow ∧
    (get_response_for_state services parseNone tomorrow bs nid s "tomorrow morning").session.selected_time
      = some "09:00 AM" := by
  have hgb : isGoodbye "tomorrow morning" = false := by decide
  have hcl : classify "tomorrow morning" = "unknown" := by decide
  have h1 : (classify "tomorrow morning" == "show_bookings") = false := by rw [hcl]; decide
  have h2 : (classify "tomorrow morning" == "cancel") = false := by rw [hcl]; decide
  have h3 : (classify "tomorrow morning" == "update") = false := by rw [hcl]; decide
  have hmem2 : "09:00 AM" ∈ sv.available_slots := by simpa using hmem
  simp [get_response_for_state, hgb, h1, h2, h3, hstate, handle_datetime_state, hsv,
    extract_datetime, parseNone, htom, hmem2, havail]

/-- Witness for C6 amended: the concrete `datetime` session of the
counterexample, empty store, tomorrow = 2026-10-13. -/
theorem datetime_parse_failure_uses_fallback_witness :
    (get_response_for_state initServices parseNone tmr [] 0 dtSession "tomorrow morning").session.state
      = "confirmation" :=
  (datetime_parse_failure_uses_fallback initServices [] 0 dtSession haircut tmr
    rfl rfl (by decide) (by decide) (by decide)).1

/-- C7: `extract_datetime` never propagates a parser exception (it is a
total function of the parser's outcome); whenever the parser fails, it
returns the fallback of tomorrow's date and the "09:00 AM" label. -/
theorem extract_datetime_parse_failure_fallback
    (parse : String → Option (String × String)) (tomorrow text : String)
    (h : parse (pyStrip text) = none) :
    extract_datetime parse tomorrow text = (tomorrow, "09:00 AM") := by
  unfold extract_datetime
  rw [h]

/-- Witness for C7 at a concrete failing parser and input. -/
theorem extract_datetime_parse_failure_fallback_witness :
    extract_datetime parseNone tmr "next blue moon" = (tmr, "09:00 AM") :=
  extract_datetime_parse_failure_fallback parseNone tmr "next blue moon" rfl

/-- C3 amended: a session in a terminal state (`completed` or `ended`)
keeps its state and the booking store unchanged on any further input
**that contains no goodbye keyword and triggers no global
cancel/update/show-bookings intent**; in `ended`, the reply is the fixed
session-ended message.  (Goodbye keywords re-enter `ended`, and the
global cancel/update intents can leave a terminal state, as the
counterexample shows.) -/
theorem terminal_states_absorb_nonglobal (services : List Service)
    (parse : String → Option (String × String)) (tomorrow : String)
    (bs : List Booking) (nid : Nat) (s : Session) (input : String)
    (hstate : s.state = "completed" ∨ s.state = "ended")
    (hgb : isGoodbye input = false)
    (hshow : classify input ≠ "show_bookings")
    (hcancel : classify input ≠ "cancel")
    (hupdate : classify input ≠ "update") :
    (get_response_for_state services parse tomorrow bs nid s input).session.state = s.state ∧
    (get_response_for_state services parse tomorrow bs nid s input).bookings = bs ∧
    (s.state = "ended" →
      (get_response_for_state services parse tomorrow bs nid s input).reply =
        "The session has ended. Please start a new session to continue.") := by
  have h1 : (classify input == "show_bookings") = false := beq_eq_false_iff_ne.mpr hshow
  have h2 : (classify input == "cancel") = false := beq_eq_false_iff_ne.mpr hcancel
  have h3 : (classify input == "update") = false := beq_eq_false_iff_ne.mpr hupdate
  rcases hstate with h | h <;>
    simp [get_response_for_state, hgb, h1, h2, h3, h]

/-- A fresh session moved to the `ended` state. -/
def endedSession : Session := ⟨"ended", none, none, none, none, []⟩

/-- Witness for C3 amended: an `ended` session receiving "thanks" stays
`ended` with the fixed session-ended reply. -/
theorem terminal_states_absorb_nonglobal_witness :
    (get_response_for_state initServices parseNone tmr [] 0 endedSession "thanks").session.state
      = "ended" ∧
    (get_response_for_state initServices parseNone tmr [] 0 endedSession "thanks").reply =
      "The session has ended. Please start a new session to continue." :=
  ⟨(terminal_states_absorb_nonglobal initServices parseNone tmr [] 0 endedSession "thanks"
      (Or.inr rfl) (by decide) (by decide) (by decide) (by decide)).1,
   (terminal_states_absorb_nonglobal initServices parseNone tmr [] 0 endedSession "thanks"
      (Or.inr rfl) (by decide) (by decide) (by decide) (by decide)).2.2 rfl⟩

/-- Alice completes a booking, then sends "cancel bye" — classified as
the cancel intent, but containing a goodbye keyword. -/
def cancelByeOps : List Op := aliceBooks ++ [.send 0 "cancel bye" parseNone tmr]

/-- C9 counterexample: a message classified as the cancel intent need not
cancel anything — "cancel bye" contains a goodbye keyword, so the
goodbye short-circuit fires first: the state becomes `ended` (not
`greeting`) and Alice's confirmed booking stays confirmed. -/
theorem cancel_intent_preempted_by_goodbye :
    classify "cancel bye" = "cancel" ∧
    ((run cancelByeOps).sessions.get? 0).map Session.state = some "ended" ∧
    (run cancelByeOps).bookings.map Booking.status = ["confirmed"] := by decide

/-- After the global cancel rewrite, the user has no confirmed bookings
left. -/
theorem filter_cancelAllFor (u : Option String) (bs : List Booking) :
    ((cancelAllFor u bs).filter fun b => b.user_name == u && b.status == "confirmed") = [] := by
  induction bs with
  | nil => rfl
  | cons b t ih =>
    simp only [cancelAllFor, List.map_cons] at ih ⊢
    by_cases h : (b.user_name == u && b.status == "confirmed") = true
    · rw [if_pos h]
      simpa [List.filter_cons] using ih
    · rw [if_neg h]
      rw [Bool.not_eq_true] at h
      simpa [List.filter_cons, h] using ih

/-- C9 amended: for every session, a message **containing no goodbye
keyword** that is classified as the cancel intent sets status=cancelled
on every confirmed booking whose userName equals the session's userName
(afterwards the user has no confirmed bookings); if at least one booking
matched, the state becomes `greeting` with the success reply, otherwise
the nothing-to-cancel reply is returned and the session is unchanged. -/
theorem cancel_intent_cancels_all_for_user (services : List Service)
    (parse : String → Option (String × String)) (tomorrow : String)
    (bs : List Booking) (nid : Nat) (s : Session) (input : String)
    (hgb : isGoodbye input = false) (hc : classify input = "cancel") :
    (get_response_for_state services parse tomorrow bs nid s input).bookings
        = cancelAllFor s.user_name bs ∧
    ((get_response_for_state services parse tomorrow bs nid s input).bookings.filter
        fun b => b.user_name == s.user_name && b.status == "confirmed") = [] ∧
    ((bs.any fun b => b.user_name == s.user_name && b.status == "confirmed") = true →
      (get_response_for_state services parse tomorrow bs nid s input).session.state = "greeting" ∧
      (get_response_for_state services parse tomorrow bs nid s input).reply =
        "Your bookings have been cancelled successfully.") ∧
    ((bs.any fun b => b.user_name == s.user_name && b.status == "confirmed") = false →
      (get_response_for_state services parse tomorrow bs nid s input).session = s ∧
      (get_response_for_state services parse tomorrow bs nid s input).reply =
        "You have no active bookings to cancel.") := by
  have hshow : (classify input == "show_bookings") = false := by rw [hc]; decide
  have hcan : (classify input == "cancel") = true := by rw [hc]; decide
  by_cases h : (bs.any fun b => b.user_name == s.user_name && b.status == "confirmed") = true
  · simp [get_response_for_state, hgb, hshow, hcan, h, filter_cancelAllFor]
  · rw [Bool.not_eq_true] at h
    simp [get_response_for_state, hgb, hshow, hcan, h, filter_cancelAllFor]

/-! ### The userName invariant (C10) -/

/-- The dialogue states a session can only occupy after its user's name
has been captured. -/
def namedState (s : Session) : Prop :=
  s.state = "service" ∨ s.state = "datetime" ∨ s.state = "confirmation" ∨ s.state = "completed"

/-- The global cancel rewrite touches only statuses. -/
theorem cancelAllFor_preserves_user_name (u : Option String) (bs : List Booking)
    (hb : ∀ b ∈ bs, b.user_name.isSome) :
    ∀ b ∈ cancelAllFor u bs, b.user_name.isSome := by
  intro b hbm
  simp only [cancelAllFor, List.mem_map] at hbm
  obtain ⟨a, ha, heq⟩ := hbm
  by_cases h : (a.user_name == u && a.status == "confirmed") = true
  · rw [if_pos h] at heq
    rw [← heq]
    exact hb a ha
  · rw [if_neg h] at heq
    rw [← heq]
    exact hb a ha

/-- The update intent's first-match cancellation touches only statuses. -/
theorem cancelFirstFor_preserves_user_name (u : Option String) (bs : List Booking)
    (hb : ∀ b ∈ bs, b.user_name.isSome) :
    ∀ b ∈ cancelFirstFor u bs, b.user_name.isSome := by
  induction bs with
  | nil => intro b hbm; cases hbm
  | cons a t ih =>
    intro b hbm
    simp only [cancelFirstFor] at hbm
    by_cases h : (a.user_name == u && a.status == "confirmed") = true
    · rw [if_pos h] at hbm
      rcases List.mem_cons.mp hbm with heq | hmem
      · rw [heq]
        exact hb a (by simp)
      · exact hb b (by simp [hmem])
    · rw [if_neg h] at hbm
      rcases List.mem_cons.mp hbm with heq | hmem
      · rw [heq]
        exact hb a (by simp)
      · exact ih (fun x hx => hb x (by simp [hx])) b hmem

/-- The name handler only ever stores a `some` user name. -/
theorem handle_name_state_user_name (services : List Service) (s : Session) (input : String)
    (hs : namedState s → s.user_name.isSome)
    (hn : namedState (handle_name_state services s input).2) :
    (handle_name_state services s input).2.user_name.isSome := by
  unfold handle_name_state at *
  revert hn
  cases extract_name input with
  | some name => intro _; simp
  | none => intro hn; exact hs hn

/-- The service handler does not touch the user name. -/
theorem handle_service_state_user_name (services : List Service) (s : Session) (input : String) :
    (handle_service_state services s input).2.user_name = s.user_name := by
  unfold handle_service_state
  cases services.find? fun sv => containsStr (pyLower input) (pyLower sv.name) with
  | some sv => rfl
  | none => rfl

/-- The datetime handler does not touch the user name. -/
theorem handle_datetime_state_user_name (parse : String → Option (String × String))
    (tomorrow : String) (bs : List Booking) (s : Session) (input : String) :
    (handle_datetime_state parse tomorrow bs s input).2.user_name = s.user_name := by
  unfold handle_datetime_state
  cases s.selected_service with
  | none => rfl
  | some sv =>
    dsimp only
    split
    · split <;> rfl
    · rfl

/-- The confirmation handler stores the session's user name in the
booking it creates and does not change the session's user name. -/
theorem handle_confirmation_state_inv (s : Session) (intent : String) (bs : List Booking)
    (nid : Nat) (hb : ∀ b ∈ bs, b.user_name.isSome) (hus : s.user_name.isSome) :
    (∀ b ∈ (handle_confirmation_state s intent bs nid).2.2.1, b.user_name.isSome) ∧
    (handle_confirmation_state s intent bs nid).2.1.user_name = s.user_name := by
  unfold handle_confirmation_state
  by_cases h1 : (intent == "confirm") = true
  · rw [if_pos h1]
    cases s.selected_service with
    | none => exact ⟨hb, rfl⟩
    | some sv =>
      refine ⟨?_, rfl⟩
      intro b hbm
      rcases List.mem_append.mp hbm with hmem | hmem
      · exact hb b hmem
      · rw [List.mem_singleton.mp hmem]
        exact hus
  · rw [if_neg h1]
    by_cases h2 : (intent == "deny") = true
    · rw [if_pos h2]
      exact ⟨hb, rfl⟩
    · rw [if_neg h2]
      exact ⟨hb, rfl⟩

/-- One turn of `get_response_for_state` preserves the invariant: all
stored bookings carry a user name, and a session in a post-name-capture
state carries one. -/
theorem get_response_preserves_user_inv (services : List Service)
    (parse : String → Option (String × String)) (tomorrow : String)
    (bs : List Booking) (nid : Nat) (s : Session) (input : String)
    (hb : ∀ b ∈ bs, b.user_name.isSome)
    (hs : namedState s → s.user_name.isSome) :
    (∀ b ∈ (get_response_for_state services parse tomorrow bs nid s input).bookings,
        b.user_name.isSome) ∧
    (namedState (get_response_for_state services parse tomorrow bs nid s input).session →
      (get_response_for_state services parse tomorrow bs nid s input).session.user_name.isSome) := by
  unfold get_response_for_state
  by_cases hgb : isGoodbye input = true
  · rw [if_pos hgb]
    exact ⟨hb, fun hn => by simp [namedState] at hn⟩
  rw [if_neg hgb]
  dsimp only
  by_cases hshow : (classify input == "show_bookings") = true
  · rw [if_pos hshow]
    split <;> exact ⟨hb, hs⟩
  rw [if_neg hshow]
  by_cases hcan : (classify input == "cancel") = true
  · rw [if_pos hcan]
    split
    · exact ⟨cancelAllFor_preserves_user_name _ _ hb, fun hn => by simp [namedState] at hn⟩
    · exact ⟨cancelAllFor_preserves_user_name _ _ hb, hs⟩
  rw [if_neg hcan]
  by_cases hupd : (classify input == "update") = true
  · rw [if_pos hupd]
    cases hfind : bs.find? (fun b => b.user_name == s.user_name && b.status == "confirmed") with
    | none => exact ⟨hb, hs⟩
    | some b =>
      dsimp only
      have hbmem : b ∈ bs := List.mem_of_find?_eq_some hfind
      have hpred := List.find?_some hfind
      have hub : b.user_name = s.user_name := by
        simp only [Bool.and_eq_true] at hpred
        exact eq_of_beq hpred.1
      have hu : s.user_name.isSome := by
        rw [← hub]
        exact hb b hbmem
      cases hsv : findService services b.service_id with
      | none => exact ⟨hb, hs⟩
      | some sv => exact ⟨cancelFirstFor_preserves_user_name _ _ hb, fun _ => hu⟩
  rw [if_neg hupd]
  by_cases h1 : (s.state == "greeting") = true
  · rw [if_pos h1]
    exact ⟨hb, fun hn => by simp [handle_greeting_state, namedState] at hn⟩
  rw [if_neg h1]
  by_cases h2 : (s.state == "name") = true
  · rw [if_pos h2]
    exact ⟨hb, handle_name_state_user_name services s input hs⟩
  rw [if_neg h2]
  by_cases h3 : (s.state == "service") = true
  · rw [if_pos h3]
    have hu : s.user_name.isSome := hs (Or.inl (eq_of_beq h3))
    refine ⟨hb, fun _ => ?_⟩
    rw [handle_service_state_user_name]
    exact hu
  rw [if_neg h3]
  by_cases h4 : (s.state == "datetime") = true
  · rw [if_pos h4]
    have hu : s.user_name.isSome := hs (Or.inr (Or.inl (eq_of_beq h4)))
    refine ⟨hb, fun _ => ?_⟩
    rw [handle_datetime_state_user_name]
    exact hu
  rw [if_neg h4]
  by_cases h5 : (s.state == "confirmation") = true
  · rw [if_pos h5]
    have hu : s.user_name.isSome := hs (Or.inr (Or.inr (Or.inl (eq_of_beq h5))))
    have hc := handle_confirmation_state_inv s (classify input) bs nid hb hu
    exact ⟨hc.1, fun _ => by rw [hc.2]; exact hu⟩
  rw [if_neg h5]
  by_cases h6 : (s.state == "ended") = true
  · rw [if_pos h6]
    exact ⟨hb, hs⟩
  rw [if_neg h6]
  exact ⟨hb, hs⟩

/-- The store-level invariant: all stored bookings carry a user name and
every stored session in a post-name-capture state carries one. -/
def StoreInv (g : GState) : Prop :=
  (∀ b ∈ g.bookings, b.user_name.isSome) ∧
  (∀ s ∈ g.sessions, namedState s → s.user_name.isSome)

/-- Every API call preserves the store invariant. -/
theorem step_preserves_StoreInv (g : GState) (op : Op) (h : StoreInv g) :
    StoreInv (step g op).1 := by
  obtain ⟨hb, hs⟩ := h
  cases op with
  | start =>
    refine ⟨hb, ?_⟩
    intro s hsm hn
    rcases List.mem_append.mp hsm with hmem | hmem
    · exact hs s hmem hn
    · rw [List.mem_singleton.mp hmem] at hn
      simp [initSession, namedState] at hn
  | send sid text parse tomorrow =>
    unfold step
    dsimp only
    cases hg : g.sessions.get? sid with
    | none => exact ⟨hb, hs⟩
    | some s =>
      dsimp only
      have hsmem : s ∈ g.sessions := List.get?_mem hg
      have hs0 : namedState { s with history := s.history ++ [(true, pyStrip text)] } →
          ({ s with history := s.history ++ [(true, pyStrip text)] } : Session).user_name.isSome := by
        intro hn
        exact hs s hsmem hn
      have hmain := get_response_preserves_user_inv g.services parse tomorrow g.bookings
        g.nextBookingId { s with history := s.history ++ [(true, pyStrip text)] }
        (pyStrip text) hb hs0
      refine ⟨hmain.1, ?_⟩
      intro t htm hn
      rcases List.mem_or_eq_of_mem_set htm with hmem | heq
      · exact hs t hmem hn
      · rw [heq] at hn ⊢
        exact hmain.2 hn
  -- the updated session differs from the handler's result only in its history

/-- The invariant holds in every reachable store. -/
theorem run_StoreInv (ops : List Op) : StoreInv (run ops) := by
  suffices h : ∀ g, StoreInv g → StoreInv (ops.foldl (fun g op => (step g op).1) g) from
    h initGState ⟨by simp [initGState], by simp [initGState]⟩
  induction ops with
  | nil => exact fun g h => h
  | cons op t ih =>
    intro g h
    exact ih ((step g op).1) (step_preserves_StoreInv g op h)

/-- C10: every booking ever inserted into the store has a non-null
userName — for every sequence of startSession/sendMessage calls, every
booking in the resulting store carries `some` user name.  A session can
only reach `confirmation` (the sole booking-creation site) after a name
has been captured, and the update shortcut into `datetime` requires an
existing booking matching the session's userName, so no null-named
booking is ever created. -/
theorem bookings_always_have_user_name (ops : List Op) :
    ∀ b ∈ (run ops).bookings, b.user_name ≠ none := by
  intro b hbm
  have h := (run_StoreInv ops).1 b hbm
  exact Option.isSome_iff_ne_none.mp h

/-- Witness for C10: the booking created by Alice's happy-path trace has
a non-null user name. -/
theorem bookings_always_have_user_name_witness : aliceBooking.user_name ≠ none :=
  bookings_always_have_user_name aliceBooks aliceBooking (by decide)

/-- `List.find?` returns the marked element when everything before it
fails the predicate and it passes. -/
theorem find_first_of_split {α : Type} (p : α → Bool) (pre : List α) (x : α) (post : List α)
    (hpre : ∀ e ∈ pre, p e = false) (hx : p x = true) :
    (pre ++ x :: post).find? p = some x := by
  induction pre with
  | nil =>
    simp [List.find?_cons, hx]
  | cons a t ih =>
    have ha : p a = false := hpre a (by simp)
    simp only [List.cons_append, List.find?_cons, ha]
    exact ih fun e he => hpre e (by simp [he])

/-- C8: `classify` normalizes the text (lowercase then strip) and returns
the first intent in the fixed table order — greeting, booking,
availability, cancel, update, show_bookings, help, confirm, deny — whose
keyword set has a substring hit in the normalized text, and returns
`"unknown"` when no intent's keywords hit; in particular "no cancel",
which contains both a cancel keyword and a deny keyword, classifies as
cancel. -/
theorem intent_priority_order :
    (∀ (text : String) (pre : List (String × List String)) (name : String)
        (kws : List String) (post : List (String × List String)),
        intentTable = pre ++ (name, kws) :: post →
        (∀ e ∈ pre, keywordHit (pyStrip (pyLower text)) e.2 = false) →
        keywordHit (pyStrip (pyLower text)) kws = true →
        classify text = name) ∧
    (∀ text : String,
        (∀ e ∈ intentTable, keywordHit (pyStrip (pyLower text)) e.2 = false) →
        classify text = "unknown") ∧
    classify "no cancel" = "cancel" := by
  refine ⟨?_, ?_, by decide⟩
  · intro text pre name kws post htab hpre hkw
    simp only [classify]
    rw [htab, find_first_of_split (fun e => keywordHit (pyStrip (pyLower text)) e.2)
      pre (name, kws) post hpre hkw]
  · intro text h
    simp only [classify]
    rw [List.find?_eq_none.mpr fun e he => by simp [h e he]]

/-- Witness for C8: "please delete it" hits no keyword of the three
intents before `cancel` and hits the cancel keyword "delete", so it
classifies as cancel. -/
theorem intent_priority_order_witness : classify "please delete it" = "cancel" :=
  intent_priority_order.1 "please delete it"
    [("greeting", ["hi", "hello", "hey", "good morning", "good afternoon"]),
     ("booking", ["book", "appointment", "schedule", "reserve"]),
     ("availability", ["available", "slots", "when", "time"])]
    "cancel" ["cancel", "remove", "delete"]
    [("update", ["change", "update", "reschedule"]),
     ("show_bookings", ["show my bookings", "my bookings", "list bookings", "current bookings"]),
     ("help", ["help", "assist", "what can you do"]),
     ("confirm", ["yes", "confirm", "ok", "sure", "correct"]),
     ("deny", ["no", "cancel", "wrong", "incorrect"])]
    rfl (by decide) (by decide)

/-- Alice's session after completing her booking. -/
def aliceDoneSession : Session :=
  ⟨"completed", some "Alice", some haircut, some "2026-10-13", some "09:00 AM", []⟩

/-- Witness for C9 amended at a concrete session holding one confirmed
booking. -/
theorem cancel_intent_cancels_all_for_user_witness :
    (get_response_for_state initServices parseNone tmr [aliceBooking] 0 aliceDoneSession
        "cancel").session.state = "greeting" ∧
    (get_response_for_state initServices parseNone tmr [aliceBooking] 0 aliceDoneSession
        "cancel").bookings = cancelAllFor (some "Alice") [aliceBooking] :=
  ⟨((cancel_intent_cancels_all_for_user initServices parseNone tmr [aliceBooking] 0
      aliceDoneSession "cancel" (by decide) (by decide)).2.2.1 (by decide)).1,
   (cancel_intent_cancels_all_for_user initServices parseNone tmr [aliceBooking] 0
      aliceDoneSession "cancel" (by decide) (by decide)).1⟩

